import Mathlib

/-!
# Verification of the Algorzen Data Quality Toolkit quality-check engine

Shallow embedding of the check engine of `algorzen_dqt`:
`checks/base.py` (the `QualityCheck.run` lifecycle wrapper),
`checks/missing_values.py`, `checks/duplicates.py`, `checks/outliers.py`
and `core/engine.py` (the orchestrator dispatch).

Conventions of the embedding:
* Python floats are modelled as exact rationals (`ℚ`); every comparison
  verified below is far from a floating-point rounding boundary.
* A Python exception is modelled with `Except String`; a raised exception
  is an `Except.error` carrying the message.
* A pandas cell is a `Cell`: a missing marker (`NaN`), a string, or an
  integer.  `Cell.pyStr` is Python's `str()` on the cell
  (`str(float('nan')) = "nan"`).
* Dictionaries whose entries are only ever read through a fixed key are
  modelled as records or association lists.
-/

/-- A cell of a pandas DataFrame: missing (`NaN`), a string, or an integer. -/
inductive Cell where
  | na : Cell
  | str (s : String) : Cell
  | int (n : Int) : Cell
deriving Repr, DecidableEq

namespace Cell

/-- Python `str()` of a cell (`str(float('nan')) == "nan"`). -/
def pyStr : Cell → String
  | .na => "nan"
  | .str s => s
  | .int n => toString n

/-- `pandas.isna` on a cell. -/
def isNa : Cell → Bool
  | .na => true
  | _ => false

/-- Python `==` between a cell and a string: strings compare by content,
numbers and `NaN` are never equal to a string. -/
def eqStr (c : Cell) (s : String) : Bool :=
  match c with
  | .str t => t == s
  | _ => false

end Cell

/-- A DataFrame: a column count and a list of rows (each a list of cells).
Well-formed frames have every row of length `ncols`; theorems that need
this state it as a hypothesis. -/
structure DataFrame where
  ncols : Nat
  rows : List (List Cell)
deriving Repr, DecidableEq

namespace DataFrame

/-- Number of rows (`len(data)`). -/
def nrows (df : DataFrame) : Nat := df.rows.length

/-- The column at index `c` (`data[column]`), as the list of its cells. -/
def col (df : DataFrame) (c : Nat) : List Cell :=
  df.rows.map (fun r => r.getD c Cell.na)

end DataFrame

/-! ## `checks/base.py`: CheckConfig, CheckResult and the `run` wrapper -/

/-- `CheckConfig` (checks/base.py).  The free-form `parameters` map is not
used by any code under verification and is omitted. -/
structure CheckConfig where
  check_name : Option String := none
  check_type : Option String := none
  enabled : Bool := true
  severity : String := "medium"
  threshold : ℚ := 4/5
  description : Option String := none
deriving Repr, DecidableEq

/-- `CheckResult` (checks/base.py).  `details` is modelled as a string
association list; claims under verification only read the string-valued
entries (`"error"`, `"reason"`). -/
structure CheckResult where
  check_name : String
  check_type : String
  status : String
  score : ℚ
  details : List (String × String) := []
  execution_time : ℚ
  timestamp : String
  affected_rows : Option Nat := none
  affected_columns : Option (List String) := none
deriving Repr, DecidableEq

/-- `QualityCheck.run` (checks/base.py, lines 88-147).

The abstract parts of the object are passed explicitly: `className` is
`self.__class__.__name__`, `validateConfig` the result of the subclass's
`validate_config()`, and `execute` the subclass's `execute(data)` with the
dataset already applied — `Except.error e` models `execute` raising an
exception with message `e`.  `elapsed` and `ts` stand for the wall clock
(`time.time() - start_time` and the formatted timestamp). -/
def runCheck (className : String) (cfg : CheckConfig) (validateConfig : Bool)
    (execute : Unit → Except String CheckResult) (elapsed : ℚ) (ts : String) :
    CheckResult :=
  if cfg.enabled = false then
    { check_name := cfg.check_name.getD className
      check_type := cfg.check_type.getD "unknown"
      status := "skipped"
      score := 1
      details := [("reason", "Check disabled")]
      execution_time := 0
      timestamp := ts }
  else if validateConfig = false then
    { check_name := cfg.check_name.getD className
      check_type := cfg.check_type.getD "unknown"
      status := "error"
      score := 0
      details := [("error", "Invalid configuration")]
      execution_time := 0
      timestamp := ts }
  else
    match execute () with
    | .ok r => { r with execution_time := elapsed, timestamp := ts }
    | .error e =>
      { check_name := cfg.check_name.getD className
        check_type := cfg.check_type.getD "unknown"
        status := "error"
        score := 0
        details := [("error", e)]
        execution_time := elapsed
        timestamp := ts }

/-! ## Claims C1 and C2 about the `run` wrapper -/

/-- **C1.** `QualityCheck.run` never raises: whatever exception `execute`
throws (any message `e`, any dataset — the dataset is absorbed into the
`execute` closure), `run` returns a `CheckResult` with `status = "error"`,
`score = 0.0`, and the failure message under the `"error"` key of
`details`, rather than propagating.  (In the embedding `runCheck` is a
total function, so nothing can propagate.) -/
theorem run_converts_execute_exception (className : String) (cfg : CheckConfig)
    (e : String) (elapsed : ℚ) (ts : String) :
    (runCheck className { cfg with enabled := true } true
        (fun _ => Except.error e) elapsed ts).status = "error"
    ∧ (runCheck className { cfg with enabled := true } true
        (fun _ => Except.error e) elapsed ts).score = 0
    ∧ (runCheck className { cfg with enabled := true } true
        (fun _ => Except.error e) elapsed ts).details.lookup "error" = some e := by
  refine ⟨rfl, rfl, ?_⟩
  simp [runCheck, List.lookup]

/-- **C2.** `run` dispatches before invoking `execute`: with
`enabled = false` it returns `status = "skipped"`, `score = 1.0`; with
`enabled = true` but `validate_config() = false` it returns
`status = "error"`, `score = 0.0`.  In both cases the result is the same
for any two `execute` bodies `e1`, `e2` — i.e. `execute` is never
invoked. -/
theorem run_dispatch_before_execute (className : String) (cfg : CheckConfig)
    (v : Bool) (e1 e2 : Unit → Except String CheckResult) (elapsed : ℚ)
    (ts : String) :
    ((runCheck className { cfg with enabled := false } v e1 elapsed ts).status
        = "skipped"
      ∧ (runCheck className { cfg with enabled := false } v e1 elapsed ts).score
        = 1
      ∧ runCheck className { cfg with enabled := false } v e1 elapsed ts
        = runCheck className { cfg with enabled := false } v e2 elapsed ts)
    ∧ ((runCheck className { cfg with enabled := true } false e1 elapsed ts).status
        = "error"
      ∧ (runCheck className { cfg with enabled := true } false e1 elapsed ts).score
        = 0
      ∧ runCheck className { cfg with enabled := true } false e1 elapsed ts
        = runCheck className { cfg with enabled := true } false e2 elapsed ts) := by
  exact ⟨⟨rfl, rfl, rfl⟩, ⟨rfl, rfl, rfl⟩⟩

/-! ## `checks/missing_values.py`: MissingValuesCheck -/

/-- `MissingValuesConfig` (missing_values.py, lines 20-41), restricted to the
fields the executable code reads.  The reporting flags (`include_heatmap`,
`include_patterns`, `include_recommendations`) are never consulted by
`execute` and are omitted. -/
structure MissingValuesConfig where
  missing_threshold : ℚ := 1/10
  critical_threshold : ℚ := 1/2
  detect_empty_strings : Bool := true
  detect_whitespace : Bool := true
  detect_na_values : Bool := true
  detect_custom_na : List String := ["N/A", "NULL", "null", "None", "none", ""]
  analyze_patterns : Bool := true
  analyze_correlations : Bool := true
  suggest_imputation : Bool := true
deriving Repr, DecidableEq

/-- The default `MissingValuesConfig()`. -/
def mvDefaultConfig : MissingValuesConfig := {}

/-- `MissingValuesCheck.validate_config` (missing_values.py, lines 64-78). -/
def mvValidateConfig (cfg : MissingValuesConfig) : Bool :=
  decide (0 ≤ cfg.missing_threshold ∧ cfg.missing_threshold ≤ 1)
    && decide (0 ≤ cfg.critical_threshold ∧ cfg.critical_threshold ≤ 1)
    && decide (cfg.missing_threshold < cfg.critical_threshold)

/-- Python `str.strip()` as a character list: drop whitespace from both
ends.  The code only ever tests the stripped value against `""`. -/
def pyStripList (s : String) : List Char :=
  ((s.toList.dropWhile Char.isWhitespace).reverse.dropWhile Char.isWhitespace).reverse

/-- `MissingValuesCheck._count_missing_values` (missing_values.py,
lines 174-195): the four detection methods are summed independently, so one
cell can be counted several times.  (`series.astype(str).str.strip().eq("")`
stringifies the cell before stripping, hence `pyStr`.) -/
def countMissingValues (cfg : MissingValuesConfig) (col : List Cell) : Nat :=
  (if cfg.detect_na_values then col.countP (fun c => c.isNa) else 0)
    + (if cfg.detect_empty_strings then col.countP (fun c => c.eqStr "") else 0)
    + (if cfg.detect_whitespace then
        col.countP (fun c => (pyStripList c.pyStr).isEmpty) else 0)
    + (cfg.detect_custom_na.map (fun na => col.countP (fun c => c.eqStr na))).sum

/-- The boolean missingness tuple of one row
(`data.isna().apply(tuple, axis=1)` for that row). -/
def rowPattern (r : List Cell) : List Bool := r.map (fun c => c.isNa)

/-- The `patterns` dict built by `_analyze_missing_patterns`; `column_patterns`
is created and never filled nor read, and is omitted. -/
structure MissingPatterns where
  row_patterns : List (List Bool × Nat)
  systematic_missing : List (List Bool × Nat)
deriving Repr, DecidableEq

/-- `MissingValuesCheck._analyze_missing_patterns` (missing_values.py,
lines 197-221).  `value_counts()` is modelled as the list of distinct
patterns with their multiplicities; its frequency-descending order only
affects the display-only `head(10)` slice, while `systematic_missing`
(patterns covering strictly more than 10% of rows — `count > len(data)*0.1`)
is consumed downstream solely through emptiness tests. -/
def mvPatternCounts (df : DataFrame) : List (List Bool × Nat) :=
  (df.rows.map rowPattern).dedup.map
    (fun p => (p, (df.rows.map rowPattern).count p))

/-- The body of `_analyze_missing_patterns`, assembling the patterns dict
from `pattern_counts`. -/
def analyzeMissingPatterns (df : DataFrame) : MissingPatterns :=
  { row_patterns := (mvPatternCounts df).take 10
    systematic_missing :=
      (mvPatternCounts df).filter
        (fun pc => decide ((df.nrows : ℚ) * (1/10) < (pc.2 : ℚ))) }

/-- The 0/1 missing-indicator column `data.isna().astype(int)[c]`. -/
def missingIndicator (df : DataFrame) (c : Nat) : List ℚ :=
  (df.col c).map (fun cell => if cell.isNa then 1 else 0)

/-- Whether pandas `Series.corr` of the two 0/1 indicator columns is defined
(non-`NaN`, which requires nonzero variance on both sides) with
`|corr| > 0.3`.  Pearson `|r| > 0.3` is equivalent to
`(0.3)² · Σ(x-x̄)² · Σ(y-ȳ)² < (Σ(x-x̄)(y-ȳ))²`, which avoids the square
root and stays in `ℚ`. -/
def corrSignificant (x y : List ℚ) : Bool :=
  let n : ℚ := x.length
  let mx := x.sum / n
  let my := y.sum / n
  let sxx := (x.map (fun a => (a - mx) ^ 2)).sum
  let syy := (y.map (fun b => (b - my) ^ 2)).sum
  let sxy := (List.zipWith (fun a b => (a - mx) * (b - my)) x y).sum
  decide (sxx ≠ 0) && decide (syy ≠ 0) && decide ((3/10) ^ 2 * (sxx * syy) < sxy ^ 2)

/-- `MissingValuesCheck._analyze_missing_correlations` (missing_values.py,
lines 223-238): the column pairs `i < j` whose missingness indicators are
significantly correlated.  The stored float value is display-only, so the
embedding keeps the keys. -/
def analyzeMissingCorrelations (df : DataFrame) : List (Nat × Nat) :=
  ((List.range df.ncols).map (fun i =>
      ((List.range df.ncols).filter (fun j => decide (i < j))).filterMap (fun j =>
        if corrSignificant (missingIndicator df i) (missingIndicator df j) then
          some (i, j)
        else none))).flatten

/-- Reading `patterns["systematic_missing"]`: the initial `{}` (here `none`)
has no such key and raises `KeyError`. -/
def lookupSystematic :
    Option MissingPatterns → Except String (List (List Bool × Nat))
  | none => Except.error "KeyError: systematic_missing"
  | some p => Except.ok p.systematic_missing

/-- The message list `_generate_imputation_recommendations` builds once the
`"systematic_missing"` lookup has succeeded (with `sys` its result). -/
def imputationMessages (cfg : MissingValuesConfig) (overall : ℚ)
    (percentages : List ℚ) (sys : List (List Bool × Nat))
    (correlations : List (Nat × Nat)) : List String :=
  let overallRecs : List String :=
    if cfg.critical_threshold < overall then
      ["CRITICAL: Dataset has >50% missing data. Consider data source investigation."]
    else if cfg.missing_threshold < overall then
      ["WARNING: Dataset has >10% missing data. Implement imputation strategies."]
    else []
  let colRecs : List String :=
    (percentages.enum.filterMap (fun pc =>
      if cfg.critical_threshold < pc.2 then
        some ("CRITICAL: Column " ++ toString pc.1 ++ " missing data")
      else if cfg.missing_threshold < pc.2 then
        some ("WARNING: Column " ++ toString pc.1 ++ " missing data")
      else none))
  let patRecs : List String :=
    if sys.isEmpty then [] else
      ["PATTERN: Systematic missing data detected. Investigate data collection process."]
  let corrRecs : List String :=
    if correlations.isEmpty then [] else
      ["CORRELATION: Missing values are correlated between columns. Consider joint imputation."]
  overallRecs ++ colRecs ++ patRecs ++ corrRecs

/-- `MissingValuesCheck._generate_imputation_recommendations`
(missing_values.py, lines 240-265).  Message text beyond its discriminating
prefix (float formatting of percentages) is not modelled; no claim reads
these strings.  The read of `analysis["missing_patterns"]["systematic_missing"]`
raises `KeyError` when pattern analysis left the dict empty. -/
def generateImputationRecommendations (cfg : MissingValuesConfig) (overall : ℚ)
    (percentages : List ℚ) (patterns : Option MissingPatterns)
    (correlations : List (Nat × Nat)) : Except String (List String) :=
  match lookupSystematic patterns with
  | Except.error e => Except.error e
  | Except.ok sys =>
    Except.ok (imputationMessages cfg overall percentages sys correlations)

/-- The per-column missing counts of `_analyze_missing_values`
(the `analysis["missing_counts"]` dict, keyed by column position). -/
def mvMissingCounts (cfg : MissingValuesConfig) (df : DataFrame) : List Nat :=
  (List.range df.ncols).map (fun c => countMissingValues cfg (df.col c))

/-- `analysis["missing_percentages"]`: per-column `missing_count / len(data)`. -/
def mvMissingPercentages (cfg : MissingValuesConfig) (df : DataFrame) : List ℚ :=
  (mvMissingCounts cfg df).map (fun k => (k : ℚ) / (df.nrows : ℚ))

/-- `analysis["columns_with_missing"]`: how many columns have a positive
missing count. -/
def mvColumnsWithMissing (cfg : MissingValuesConfig) (df : DataFrame) : Nat :=
  (mvMissingCounts cfg df).countP (fun k => decide (0 < k))

/-- `analysis["overall_missing_percentage"]`:
`total_missing / (total_rows * total_columns)`. -/
def mvOverallMissingPercentage (cfg : MissingValuesConfig) (df : DataFrame) : ℚ :=
  (((mvMissingCounts cfg df).sum : ℕ) : ℚ) / ((df.nrows * df.ncols : ℕ) : ℚ)

/-- `analysis["missing_patterns"]`: filled only when `analyze_patterns`. -/
def mvPatterns (cfg : MissingValuesConfig) (df : DataFrame) :
    Option MissingPatterns :=
  if cfg.analyze_patterns then some (analyzeMissingPatterns df) else none

/-- `analysis["correlations"]`: filled only when `analyze_correlations`. -/
def mvCorrelations (cfg : MissingValuesConfig) (df : DataFrame) :
    List (Nat × Nat) :=
  if cfg.analyze_correlations then analyzeMissingCorrelations df else []

/-- The `analysis` dict of `_analyze_missing_values`.  `missing_counts` and
`missing_percentages` are per column index; `missing_patterns = none` is the
initial empty dict. -/
structure MissingAnalysis where
  total_rows : Nat
  total_columns : Nat
  missing_counts : List Nat
  missing_percentages : List ℚ
  columns_with_missing : Nat
  overall_missing_percentage : ℚ
  missing_patterns : Option MissingPatterns
  correlations : List (Nat × Nat)
  recommendations : List String
deriving Repr, DecidableEq

/-- `MissingValuesCheck._analyze_missing_values` (missing_values.py,
lines 130-172).  A Python `ZeroDivisionError` is raised by
`missing_count / len(data)` on a 0-row frame with columns, and by
`total_missing / total_cells` on a frame with no cells; the `KeyError` of the
recommendation step propagates. -/
def analyzeMissingValues (cfg : MissingValuesConfig) (df : DataFrame) :
    Except String MissingAnalysis :=
  if 0 < df.ncols ∧ df.nrows = 0 then
    Except.error "ZeroDivisionError: division by zero"
  else if df.nrows * df.ncols = 0 then
    Except.error "ZeroDivisionError: division by zero"
  else
    match (if cfg.suggest_imputation then
            generateImputationRecommendations cfg
              (mvOverallMissingPercentage cfg df) (mvMissingPercentages cfg df)
              (mvPatterns cfg df) (mvCorrelations cfg df)
           else Except.ok []) with
    | Except.error e => Except.error e
    | Except.ok recs =>
      Except.ok
        { total_rows := df.nrows
          total_columns := df.ncols
          missing_counts := mvMissingCounts cfg df
          missing_percentages := mvMissingPercentages cfg df
          columns_with_missing := mvColumnsWithMissing cfg df
          overall_missing_percentage := mvOverallMissingPercentage cfg df
          missing_patterns := mvPatterns cfg df
          correlations := mvCorrelations cfg df
          recommendations := recs }

/-- The score `_calculate_quality_score` computes once the
`"systematic_missing"` lookup has succeeded (with `sys` its result):
`1 − 0.5·overall − 0.2·(columns_with_missing/total_columns) − 0.1·[sys ≠ ∅]`,
clamped to `[0,1]` via `max(0.0, min(1.0, base_score))`. -/
def mvScoreValue (a : MissingAnalysis) (sys : List (List Bool × Nat)) : ℚ :=
  let base : ℚ := 1 - a.overall_missing_percentage * (1/2)
    - ((a.columns_with_missing : ℚ) / (a.total_columns : ℚ)) * (1/5)
    - (if sys.isEmpty then 0 else 1/10)
  max 0 (min 1 base)

/-- `MissingValuesCheck._calculate_quality_score` (missing_values.py,
lines 267-284): penalties, with the unconditional read of
`analysis["missing_patterns"]["systematic_missing"]`. -/
def mvCalculateQualityScore (a : MissingAnalysis) : Except String ℚ :=
  match lookupSystematic a.missing_patterns with
  | Except.error e => Except.error e
  | Except.ok sys => Except.ok (mvScoreValue a sys)

/-- `MissingValuesCheck._determine_status` (missing_values.py,
lines 286-295). -/
def mvDetermineStatus (q : ℚ) : String :=
  if 9/10 ≤ q then "passed"
  else if 7/10 ≤ q then "warning"
  else if 1/2 ≤ q then "failed"
  else "critical"

/-- `MissingValuesCheck.execute` (missing_values.py, lines 80-128): validate,
analyze, score, classify; any exception in the `try` block becomes a
`status="error"`, `score=0.0` result with the message in `details["error"]`.
Wall-clock fields are modelled as `0` / `""`; the structured
`_generate_details` payload is display-only and left empty. -/
def mvExecute (cfg : MissingValuesConfig) (df : DataFrame) : CheckResult :=
  let body : Except String (ℚ × MissingAnalysis) :=
    if mvValidateConfig cfg = false then Except.error "Invalid configuration"
    else
      match analyzeMissingValues cfg df with
      | Except.error e => Except.error e
      | Except.ok a =>
        match mvCalculateQualityScore a with
        | Except.error e => Except.error e
        | Except.ok q => Except.ok (q, a)
  match body with
  | Except.ok (q, a) =>
    { check_name := "Missing Values Analysis"
      check_type := "missing_values"
      status := mvDetermineStatus q
      score := q
      details := []
      execution_time := 0
      timestamp := ""
      affected_rows := some a.total_rows
      affected_columns := some ((List.range df.ncols).map toString) }
  | Except.error e =>
    { check_name := "Missing Values Analysis"
      check_type := "missing_values"
      status := "error"
      score := 0
      details := [("error", e)]
      execution_time := 0
      timestamp := "" }

/-! ## Claim C5: the 10-row, 3-empty-string scenario -/

/-- The C5 configuration: `detect_empty_strings=True`, `detect_na_values=False`,
remaining options at their defaults (so `detect_whitespace=True` and the
default sentinel list, which contains `""`, stay enabled). -/
def cfgC5 : MissingValuesConfig := { mvDefaultConfig with detect_na_values := false }

/-- The C5 dataset: 10 rows, 1 column, exactly 3 cells the empty string. -/
def dfC5 : DataFrame :=
  { ncols := 1
    rows := [[Cell.str "a"], [Cell.str "b"], [Cell.str ""], [Cell.str "c"],
             [Cell.str "d"], [Cell.str ""], [Cell.str "e"], [Cell.str "f"],
             [Cell.str ""], [Cell.str "g"]] }

/-- **C5, counterexample.** On the 10-row dataset with exactly 3 empty-string
cells, `MissingValuesCheck` with `detect_empty_strings=True`,
`detect_na_values=False` and remaining options at their defaults does NOT
report a missing count of 3 nor an overall missing percentage of 0.3. -/
theorem missing_count_c5_counterexample :
    (analyzeMissingValues cfgC5 dfC5).toOption.map (fun a => a.missing_counts)
      ≠ some [3]
    ∧ (analyzeMissingValues cfgC5 dfC5).toOption.map
        (fun a => a.overall_missing_percentage) ≠ some (3/10) := by
  constructor
  · decide
  · have h : (analyzeMissingValues cfgC5 dfC5).toOption.map
        (fun a => a.overall_missing_percentage)
        = some (((9 : ℕ) : ℚ) / ((10 : ℕ) : ℚ)) := rfl
    rw [h]
    norm_num

/-- **C5, amended.** Each empty-string cell is detected by three enabled
methods at once (empty-string test, whitespace-strip test, and the `""`
sentinel in the default custom-NA list), and `_count_missing_values` sums
the methods without deduplication, so the check reports a missing count of
9 for the column and an overall missing percentage of 0.9. -/
theorem missing_count_c5_amended :
    countMissingValues cfgC5 (dfC5.col 0) = 9
    ∧ (analyzeMissingValues cfgC5 dfC5).toOption.map (fun a => a.missing_counts)
      = some [9]
    ∧ (analyzeMissingValues cfgC5 dfC5).toOption.map
        (fun a => a.overall_missing_percentage) = some (9/10) := by
  refine ⟨by decide, by decide, ?_⟩
  have h : (analyzeMissingValues cfgC5 dfC5).toOption.map
      (fun a => a.overall_missing_percentage)
      = some (((9 : ℕ) : ℚ) / ((10 : ℕ) : ℚ)) := rfl
  rw [h]
  norm_num

/-! ## `difflib.SequenceMatcher` (Python stdlib), used by `_calculate_row_similarity`

`DuplicatesCheck` calls `SequenceMatcher(None, val1, val2).ratio()` with no
junk predicate.  Both strings compared in the claims are far below the 200
characters at which difflib's `autojunk` heuristic activates, so the
embedding is junk-free: the two junk-extension `while` loops of
`find_longest_match` never fire and are not modelled, while the two
non-junk extension loops are (`extendLeft`/`extendRight`).

The recursive helpers use an explicit fuel argument in place of difflib's
unbounded loops; every call below supplies fuel exceeding the loop's
iteration bound, so the fuel case is never hit on the inputs verified. -/

namespace Difflib

/-- One row of `find_longest_match`'s dynamic programming: `newj2len[j]`,
the length of the longest common run ending at `(i, j)`.  difflib stores
only the nonzero entries (via `b2j`); the dense row is equal because
`j2len.get(j-1, 0)` defaults absent entries to `0`. -/
def dpRow (ai : Char) (b : List Char) (blo bhi : Nat) (prev : List Nat) :
    List Nat :=
  (List.range b.length).map (fun j =>
    if blo ≤ j ∧ j < bhi ∧ b.getD j default = ai then
      (if j = 0 then 0 else prev.getD (j - 1) 0) + 1
    else 0)

/-- Scan one DP row in ascending `j`, replacing the best block on strict
improvement (`if k > bestsize`), exactly difflib's update
`besti, bestj, bestsize = i-k+1, j-k+1, k`. -/
def bestInRow (i : Nat) (row : List Nat) (best : Nat × Nat × Nat) :
    Nat × Nat × Nat :=
  row.enum.foldl
    (fun best jk =>
      if best.2.2 < jk.2 then (i + 1 - jk.2, jk.1 + 1 - jk.2, jk.2) else best)
    best

/-- The first (non-junk) extension loop of `find_longest_match`: grow the
block leftward while the preceding characters match.  Fuel bounds the loop
by `besti` (which strictly decreases). -/
def extendLeft (a b : List Char) (alo blo : Nat) :
    Nat → Nat × Nat × Nat → Nat × Nat × Nat
  | 0, best => best
  | fuel + 1, (besti, bestj, bestsize) =>
    if alo < besti ∧ blo < bestj
        ∧ a.getD (besti - 1) default = b.getD (bestj - 1) default then
      extendLeft a b alo blo fuel (besti - 1, bestj - 1, bestsize + 1)
    else (besti, bestj, bestsize)

/-- The second (non-junk) extension loop: grow the block rightward while the
following characters match.  Fuel bounds the loop by `bhi`. -/
def extendRight (a b : List Char) (ahi bhi besti bestj : Nat) :
    Nat → Nat → Nat
  | 0, bestsize => bestsize
  | fuel + 1, bestsize =>
    if besti + bestsize < ahi ∧ bestj + bestsize < bhi
        ∧ a.getD (besti + bestsize) default = b.getD (bestj + bestsize) default then
      extendRight a b ahi bhi besti bestj fuel (bestsize + 1)
    else bestsize

/-- `SequenceMatcher.find_longest_match(alo, ahi, blo, bhi)` without junk:
the DP over `i ∈ [alo, ahi)` followed by the two extension loops. -/
def findLongestMatch (a b : List Char) (alo ahi blo bhi : Nat) :
    Nat × Nat × Nat :=
  let dp := (List.range' alo (ahi - alo)).foldl
    (fun (st : List Nat × (Nat × Nat × Nat)) i =>
      let row := dpRow (a.getD i default) b blo bhi st.1
      (row, bestInRow i row st.2))
    (List.replicate b.length 0, (alo, blo, 0))
  let best := extendLeft a b alo blo dp.2.1 dp.2
  (best.1, best.2.1,
    extendRight a b ahi bhi best.1 best.2.1 bhi best.2.2)

/-- The total number of matched characters summed over
`get_matching_blocks`: recursively take the longest match and recurse on
both sides (the queue-and-sort bookkeeping of `get_matching_blocks` does
not change the sum, which is all `ratio()` consumes).  Each recursive call
strictly shrinks `(ahi - alo) + (bhi - blo)`, so the top-level fuel
`a.length + b.length + 1` is never exhausted. -/
def totalMatchesAux (a b : List Char) :
    Nat → Nat → Nat → Nat → Nat → Nat
  | 0, _, _, _, _ => 0
  | fuel + 1, alo, ahi, blo, bhi =>
    match findLongestMatch a b alo ahi blo bhi with
    | (i, j, k) =>
      if k = 0 then 0
      else totalMatchesAux a b fuel alo i blo j + k
        + totalMatchesAux a b fuel (i + k) ahi (j + k) bhi

def totalMatches (a b : List Char) : Nat :=
  totalMatchesAux a b (a.length + b.length + 1) 0 a.length 0 b.length

/-- `SequenceMatcher.ratio() = 2.0 * M / T` (and `1.0` when `T = 0`). -/
def sequenceMatcherRatio (s1 s2 : String) : ℚ :=
  let a := s1.toList
  let b := s2.toList
  let T := a.length + b.length
  if T = 0 then 1
  else ((2 * totalMatches a b : ℕ) : ℚ) / ((T : ℕ) : ℚ)

end Difflib

/-! ## `checks/duplicates.py`: fuzzy row similarity and grouping -/

/-- `pd.isna` applied to the result of `str(...)`: a Python `str` is never
`NA`, so this is constantly `false`.  `_calculate_row_similarity`
stringifies both values *before* testing `pd.isna`, which is why its
missing-vs-missing branch is unreachable. -/
def pyIsnaStr (_v : String) : Bool := false

/-- The per-column body of `DuplicatesCheck._calculate_row_similarity`
(duplicates.py, lines 300-311): the element appended to `similarities`
for one column. -/
def columnSimilarity (c1 c2 : Cell) : ℚ :=
  let v1 := c1.pyStr
  let v2 := c2.pyStr
  if pyIsnaStr v1 || pyIsnaStr v2 then 0
  else if v1 = v2 then 1
  else Difflib.sequenceMatcherRatio v1 v2

/-- `DuplicatesCheck._calculate_row_similarity` (duplicates.py,
lines 296-314): `np.mean` of the per-column similarities. -/
def rowSimilarity (r1 r2 : List Cell) : ℚ :=
  let sims := List.zipWith columnSimilarity r1 r2
  sims.sum / (sims.length : ℚ)

/-- The pair loop of `DuplicatesCheck._detect_fuzzy_duplicates`
(duplicates.py, lines 222-232): all positional pairs `i < j` whose row
similarity reaches `fuzzy_threshold`.  (No sampling: the claims' datasets
are far below `max_fuzzy_comparisons`.) -/
def detectFuzzyPairs (rows : List (List Cell)) (threshold : ℚ) :
    List (Nat × Nat) :=
  ((List.range rows.length).map (fun i =>
    (List.range' (i + 1) (rows.length - (i + 1))).filterMap (fun j =>
      if threshold ≤ rowSimilarity (rows.getD i []) (rows.getD j []) then
        some (i, j)
      else none))).flatten

/-- Insert the directed edge `i → j` into the insertion-ordered adjacency
list (`graph[i].add(j)` on a `defaultdict(set)`). -/
def addEdge (adj : List (Nat × List Nat)) (i j : Nat) :
    List (Nat × List Nat) :=
  if (adj.lookup i).isSome then
    adj.map (fun kv =>
      if kv.1 = i then (kv.1, if j ∈ kv.2 then kv.2 else kv.2 ++ [j]) else kv)
  else adj ++ [(i, [j])]

/-- The graph-building loop of `_group_similar_rows`: keys appear in first
insertion order, matching Python dict iteration.  (CPython's set iteration
order for neighbours can differ from insertion order; it only permutes the
order *inside* a DFS group, and the verified dataset has singleton
neighbour sets.) -/
def buildGraph (pairs : List (Nat × Nat)) : List (Nat × List Nat) :=
  pairs.foldl (fun adj p => addEdge (addEdge adj p.1 p.2) p.2 p.1) []

/-- The stack-based DFS of `_group_similar_rows` (duplicates.py,
lines 336-343): pop, append to the group, push unvisited neighbours
(marking them visited at push time).  Fuel bounds the pops by the node
count. -/
def dfsLoop (adj : List (Nat × List Nat)) :
    Nat → List Nat → List Nat → List Nat → List Nat × List Nat
  | 0, _, visited, group => (group, visited)
  | fuel + 1, stack, visited, group =>
    match stack with
    | [] => (group, visited)
    | current :: rest =>
      let nbrs := (adj.lookup current).getD []
      let toVisit := nbrs.filter (fun n => decide (n ∉ visited))
      dfsLoop adj fuel (toVisit.reverse ++ rest) (visited ++ toVisit)
        (group ++ [current])

/-- `DuplicatesCheck._group_similar_rows` (duplicates.py, lines 316-349):
connected components of the pair graph, keeping only components of size
greater than 1.  (The `group_i` dict keys just enumerate the returned
list.) -/
def groupSimilarRows (pairs : List (Nat × Nat)) : List (List Nat) :=
  let adj := buildGraph pairs
  let nodes := adj.map (fun kv => kv.1)
  (nodes.foldl
    (fun (st : List (List Nat) × List Nat) node =>
      if node ∈ st.2 then st
      else
        let res := dfsLoop adj (adj.length + 1) [node] (st.2 ++ [node]) []
        (st.1 ++ (if 1 < res.1.length then [res.1] else []), res.2))
    ([], [])).1

/-- The fuzzy duplicate groups of `_detect_fuzzy_duplicates`:
`_group_similar_rows` applied to the qualifying pairs. -/
def detectFuzzyGroups (rows : List (List Cell)) (threshold : ℚ) :
    List (List Nat) :=
  groupSimilarRows (detectFuzzyPairs rows threshold)

/-! ## Claim C3: both-missing cells in the fuzzy similarity -/

/-- **C3, counterexample.** Comparing a missing cell against a missing cell
contributes `1.0`, not `0.0`, to the similarity list: both values stringify
to `"nan"` before the `pd.isna` test, which therefore never fires, and the
equality branch yields `1.0`. -/
theorem fuzzy_both_missing_counterexample :
    List.zipWith columnSimilarity [Cell.na] [Cell.na] = [1]
    ∧ ¬ List.zipWith columnSimilarity [Cell.na] [Cell.na] = [0] := by
  refine ⟨rfl, fun h => ?_⟩
  have h10 : ([(1 : ℚ)]) = ([0] : List ℚ) :=
    Eq.trans
      (Eq.symm (rfl : List.zipWith columnSimilarity [Cell.na] [Cell.na] = [1])) h
  simp at h10

/-- **C3, amended.** In `DuplicatesCheck._calculate_row_similarity`, every
column position where both compared values are missing contributes
similarity `1.0` (not `0.0`) to the per-row mean: the `pd.isna` test is
applied to the `str()` forms, which are never NA, and `"nan" == "nan"`. -/
theorem fuzzy_both_missing_contributes_one (r1 r2 : List Cell) (i : Nat)
    (h : i < (List.zipWith columnSimilarity r1 r2).length)
    (h1 : r1.getD i Cell.na = Cell.na) (h2 : r2.getD i Cell.na = Cell.na) :
    (List.zipWith columnSimilarity r1 r2).get ⟨i, h⟩ = 1 := by
  have hl1 : i < r1.length := List.lt_length_left_of_zipWith h
  have hl2 : i < r2.length := List.lt_length_right_of_zipWith h
  have e1 : r1[i] = Cell.na := by
    rw [← List.getD_eq_getElem r1 Cell.na hl1]; exact h1
  have e2 : r2[i] = Cell.na := by
    rw [← List.getD_eq_getElem r2 Cell.na hl2]; exact h2
  show (List.zipWith columnSimilarity r1 r2)[i] = 1
  rw [List.getElem_zipWith, e1, e2]
  rfl

/-- **C3, witness.** The amended statement at the single-column rows
`[NaN]`, `[NaN]`. -/
theorem fuzzy_both_missing_contributes_one_witness :
    (List.zipWith columnSimilarity [Cell.na] [Cell.na]).get ⟨0, by decide⟩ = 1 :=
  fuzzy_both_missing_contributes_one [Cell.na] [Cell.na] 0 (by decide)
    (by decide) (by decide)

/-! ## Claim C6: the alice/alicia/bob fuzzy grouping -/

def rowAlice : List Cell := [Cell.str "alice", Cell.int 30]
def rowAlicia : List Cell := [Cell.str "alicia", Cell.int 30]
def rowBob : List Cell := [Cell.str "bob", Cell.int 40]

/-- The three C6 rows. -/
def rowsC6 : List (List Cell) := [rowAlice, rowAlicia, rowBob]

set_option maxRecDepth 40000 in
lemma rowSimilarity_alice_alicia : rowSimilarity rowAlice rowAlicia = 19/22 := by
  rw [show rowSimilarity rowAlice rowAlicia
    = (((8 : ℕ) : ℚ) / ((11 : ℕ) : ℚ) + (1 + 0)) / ((2 : ℕ) : ℚ) from rfl]
  norm_num

set_option maxRecDepth 40000 in
lemma rowSimilarity_alice_bob : rowSimilarity rowAlice rowBob = 1/4 := by
  rw [show rowSimilarity rowAlice rowBob
    = (((0 : ℕ) : ℚ) / ((8 : ℕ) : ℚ)
        + (((2 : ℕ) : ℚ) / ((4 : ℕ) : ℚ) + 0)) / ((2 : ℕ) : ℚ) from rfl]
  norm_num

set_option maxRecDepth 40000 in
lemma rowSimilarity_alicia_bob : rowSimilarity rowAlicia rowBob = 1/4 := by
  rw [show rowSimilarity rowAlicia rowBob
    = (((0 : ℕ) : ℚ) / ((9 : ℕ) : ℚ)
        + (((2 : ℕ) : ℚ) / ((4 : ℕ) : ℚ) + 0)) / ((2 : ℕ) : ℚ) from rfl]
  norm_num

lemma fuzzyPairsC6 : detectFuzzyPairs rowsC6 (3/5) = [(0, 1)] := by
  unfold detectFuzzyPairs
  norm_num [rowsC6, rowSimilarity_alice_alicia, rowSimilarity_alice_bob,
    rowSimilarity_alicia_bob, List.range_succ, List.range', List.filterMap_cons,
    List.getElem?_cons_zero, List.getElem?_cons_succ]

/-- **C6.** With `fuzzy_threshold=0.6`, on the rows `["alice",30]`,
`["alicia",30]`, `["bob",40]` the only qualifying pair is `(0,1)`
(similarities: `19/22 ≥ 0.6` for alice/alicia, `1/4 < 0.6` for the two bob
pairs), and connected-component grouping produces exactly one duplicate
group `[0, 1]` — so rows 0 and 1 share a group and row 2 (bob) is in no
group. -/
theorem fuzzy_groups_alice_alicia :
    detectFuzzyGroups rowsC6 (3/5) = [[0, 1]] := by
  unfold detectFuzzyGroups
  rw [fuzzyPairsC6]
  decide

/-! ## `checks/outliers.py`: modified z-score detection (claim C8) -/

/-- Insertion of one value into a sorted list (ascending, stable). -/
def insertSorted (x : ℚ) : List ℚ → List ℚ
  | [] => [x]
  | y :: ys => if x ≤ y then x :: y :: ys else y :: insertSorted x ys

/-- Ascending sort.  numpy's median sorts the values; for a totally
ordered type the sorted list is unique, so insertion sort is adequate. -/
def sortQ : List ℚ → List ℚ
  | [] => []
  | x :: xs => insertSorted x (sortQ xs)

/-- `Series.median()` / `np.median`: middle element of the sorted values,
or the mean of the two middle elements.  (Callers below guard the empty
case themselves, as the source does via `len(clean_data) == 0`.) -/
def pandasMedian (l : List ℚ) : ℚ :=
  let s := sortQ l
  if l.length % 2 = 1 then s.getD (l.length / 2) 0
  else (s.getD (l.length / 2 - 1) 0 + s.getD (l.length / 2) 0) / 2

/-- `data[column].dropna()` keeping the original row index: the indexed
non-missing entries of a numeric column (a `NaN` cell is `none`). -/
def cleanNumeric (col : List (Option ℚ)) : List (Nat × ℚ) :=
  col.enum.filterMap (fun p => p.2.map (fun v => (p.1, v)))

/-- The column's MAD as `_detect_modified_zscore_outliers` computes it:
`np.median(np.abs(clean_data - median))`. -/
def columnMad (col : List (Option ℚ)) : ℚ :=
  let vals := col.filterMap id
  pandasMedian (vals.map (fun x => |x - pandasMedian vals|))

/-- The per-column body of `OutliersCheck._detect_modified_zscore_outliers`
(outliers.py, lines 304-328): drop missing values, skip an empty column,
skip a zero-MAD column (`if mad == 0: continue`), otherwise flag the row
indices with `|0.6745 * (x - median) / mad|` above the threshold.  The
float constant `0.6745` is modelled as the exact rational it denotes in
the source text. -/
def modifiedZscoreColumnOutliers (threshold : ℚ) (col : List (Option ℚ)) :
    List Nat :=
  let vals := col.filterMap id
  if vals.isEmpty then []
  else
    let m := pandasMedian vals
    let mad := pandasMedian (vals.map (fun x => |x - m|))
    if mad = 0 then []
    else
      ((cleanNumeric col).filter
        (fun p => decide (threshold < |6745/10000 * (p.2 - m) / mad|))).map
        (fun p => p.1)

/-- **C8.** Every numeric column whose median absolute deviation is 0 is
skipped by modified z-score detection: it contributes no outliers from
this method, and the division by `mad` is never evaluated (no division
error). -/
theorem modified_zscore_mad_zero_skipped (threshold : ℚ)
    (col : List (Option ℚ)) (hmad : columnMad col = 0) :
    modifiedZscoreColumnOutliers threshold col = [] := by
  unfold columnMad at hmad
  unfold modifiedZscoreColumnOutliers
  by_cases he : (col.filterMap id).isEmpty
  · simp [he]
  · simp [he, hmad]

/-- **C8, witness.** An all-identical column has `MAD = 0` and yields no
outliers at the default threshold `3.5`. -/
theorem modified_zscore_mad_zero_skipped_witness :
    columnMad [some 5, some 5, some 5] = 0
    ∧ modifiedZscoreColumnOutliers (7/2) [some 5, some 5, some 5] = [] := by
  have h : columnMad [some 5, some 5, some 5] = 0 := by
    have hv : List.filterMap id [some (5 : ℚ), some 5, some 5] = [5, 5, 5] := rfl
    unfold columnMad
    rw [hv]
    norm_num [pandasMedian, sortQ, insertSorted]
  exact ⟨h, modified_zscore_mad_zero_skipped (7/2) _ h⟩

/-! ## Claim C7: scores clamped to [0,1], status cut points -/

/-- `MissingValuesCheck._determine_status` is duplicated verbatim in
`DuplicatesCheck` (duplicates.py, lines 438-447); embedded separately to
mirror the source. -/
def dupDetermineStatus (q : ℚ) : String :=
  if 9/10 ≤ q then "passed"
  else if 7/10 ≤ q then "warning"
  else if 1/2 ≤ q then "failed"
  else "critical"

/-- ... and again in `OutliersCheck` (outliers.py, lines 551-560). -/
def outDetermineStatus (q : ℚ) : String :=
  if 9/10 ≤ q then "passed"
  else if 7/10 ≤ q then "warning"
  else if 1/2 ≤ q then "failed"
  else "critical"

/-- `DuplicatesCheck._calculate_quality_score` (duplicates.py,
lines 416-436): `1 − 0.6·duplicate_percentage − min(0.2, total_groups/100)`
(the group penalty only when some group exists), clamped to `[0,1]`. -/
def dupCalculateQualityScore (duplicatePercentage : ℚ) (totalGroups : ℕ) : ℚ :=
  let base : ℚ := 1 - duplicatePercentage * (6/10)
  let base : ℚ :=
    if 0 < totalGroups then base - min (2/10) ((totalGroups : ℚ) / 100) else base
  max 0 (min 1 base)

/-- `OutliersCheck._calculate_quality_score` (outliers.py, lines 523-549):
`1 − 0.4·outlier_percentage − min(0.2, 0.05·methods_with_outliers)` (the
method penalty only when some method fired), minus `0.1` when the
multi-outlier-per-row pattern flag is set (the `try/except`-guarded read;
the flag is an input here), clamped to `[0,1]`. -/
def outCalculateQualityScore (outlierPercentage : ℚ)
    (methodsWithOutliers : ℕ) (multiOutlierPattern : Bool) : ℚ :=
  let base : ℚ := 1 - outlierPercentage * (4/10)
  let base : ℚ :=
    if 0 < methodsWithOutliers then
      base - min (2/10) ((methodsWithOutliers : ℚ) * (5/100))
    else base
  let base : ℚ := if multiOutlierPattern then base - 1/10 else base
  max 0 (min 1 base)

lemma clamp01 (x : ℚ) : 0 ≤ max 0 (min 1 x) ∧ max 0 (min 1 x) ≤ 1 :=
  ⟨le_max_left 0 _, max_le (by norm_num) (min_le_left 1 x)⟩

lemma statusCutCharacterization (f : ℚ → String)
    (hf : ∀ q, f q = if 9/10 ≤ q then "passed"
      else if 7/10 ≤ q then "warning"
      else if 1/2 ≤ q then "failed"
      else "critical") (q : ℚ) :
    (f q = "passed" ↔ 9/10 ≤ q)
    ∧ (f q = "warning" ↔ 7/10 ≤ q ∧ ¬ 9/10 ≤ q)
    ∧ (f q = "failed" ↔ 1/2 ≤ q ∧ ¬ 7/10 ≤ q)
    ∧ (f q = "critical" ↔ ¬ 1/2 ≤ q) := by
  rw [hf q]
  by_cases h1 : (9 : ℚ)/10 ≤ q
  · have h2 : (7 : ℚ)/10 ≤ q := by linarith
    have h3 : (2⁻¹ : ℚ) ≤ q := by linarith
    simp [h1, h2, h3]
  · by_cases h2 : (7 : ℚ)/10 ≤ q
    · have h3 : (2⁻¹ : ℚ) ≤ q := by linarith
      simp [h1, h2, h3]
    · by_cases h3 : (2⁻¹ : ℚ) ≤ q
      · simp [h1, h2, h3]
      · simp [h1, h2, h3]

/-- **C7.** For every analysis outcome (hence every dataset and valid
configuration), the quality score each of the three checks computes is
clamped to `[0,1]`, and each check's status function classifies a score by
exactly the 0.9 / 0.7 / 0.5 cut points: `passed` iff `score ≥ 0.9`,
`warning` iff `0.7 ≤ score < 0.9`, `failed` iff `0.5 ≤ score < 0.7`,
`critical` iff `score < 0.5`.  (The error paths set `score = 0.0`, also in
`[0,1]`.) -/
theorem scores_in_unit_interval_and_status_cutpoints :
    (∀ (a : MissingAnalysis) (sys : List (List Bool × Nat)),
      0 ≤ mvScoreValue a sys ∧ mvScoreValue a sys ≤ 1)
    ∧ (∀ (p : ℚ) (g : ℕ),
      0 ≤ dupCalculateQualityScore p g ∧ dupCalculateQualityScore p g ≤ 1)
    ∧ (∀ (p : ℚ) (m : ℕ) (b : Bool),
      0 ≤ outCalculateQualityScore p m b ∧ outCalculateQualityScore p m b ≤ 1)
    ∧ (∀ q : ℚ,
      (mvDetermineStatus q = "passed" ↔ 9/10 ≤ q)
      ∧ (mvDetermineStatus q = "warning" ↔ 7/10 ≤ q ∧ ¬ 9/10 ≤ q)
      ∧ (mvDetermineStatus q = "failed" ↔ 1/2 ≤ q ∧ ¬ 7/10 ≤ q)
      ∧ (mvDetermineStatus q = "critical" ↔ ¬ 1/2 ≤ q))
    ∧ (∀ q : ℚ,
      (dupDetermineStatus q = "passed" ↔ 9/10 ≤ q)
      ∧ (dupDetermineStatus q = "warning" ↔ 7/10 ≤ q ∧ ¬ 9/10 ≤ q)
      ∧ (dupDetermineStatus q = "failed" ↔ 1/2 ≤ q ∧ ¬ 7/10 ≤ q)
      ∧ (dupDetermineStatus q = "critical" ↔ ¬ 1/2 ≤ q))
    ∧ (∀ q : ℚ,
      (outDetermineStatus q = "passed" ↔ 9/10 ≤ q)
      ∧ (outDetermineStatus q = "warning" ↔ 7/10 ≤ q ∧ ¬ 9/10 ≤ q)
      ∧ (outDetermineStatus q = "failed" ↔ 1/2 ≤ q ∧ ¬ 7/10 ≤ q)
      ∧ (outDetermineStatus q = "critical" ↔ ¬ 1/2 ≤ q)) := by
  refine ⟨fun a sys => clamp01 _, fun p g => clamp01 _, fun p m b => clamp01 _,
    statusCutCharacterization mvDetermineStatus (fun q => rfl),
    statusCutCharacterization dupDetermineStatus (fun q => rfl),
    statusCutCharacterization outDetermineStatus (fun q => rfl)⟩

/-! ## Claim C9: all-present datasets score 0.9, not 1.0 -/

/-- A cell that no detection method of the default configuration counts as
missing: not `NaN`, not the empty string, not whitespace-only once
stringified, and not one of the default sentinel tokens. -/
def cellNeverMissing (c : Cell) : Bool :=
  !c.isNa && !(c.eqStr "") && !((pyStripList c.pyStr).isEmpty)
    && (mvDefaultConfig.detect_custom_na.all (fun na => !(c.eqStr na)))

lemma cellNeverMissing_split (c : Cell) (h : cellNeverMissing c = true) :
    c.isNa = false ∧ c.eqStr "" = false
    ∧ (pyStripList c.pyStr).isEmpty = false
    ∧ ∀ na ∈ mvDefaultConfig.detect_custom_na, c.eqStr na = false := by
  simp only [cellNeverMissing, Bool.and_eq_true, Bool.not_eq_true',
    List.all_eq_true] at h
  exact ⟨h.1.1.1, h.1.1.2, h.1.2, h.2⟩

lemma countMissingValues_default_zero (col : List Cell)
    (h : ∀ c ∈ col, cellNeverMissing c = true) :
    countMissingValues mvDefaultConfig col = 0 := by
  have h1 : col.countP (fun c => c.isNa) = 0 :=
    List.countP_eq_zero.mpr (fun c hc => by
      simp [(cellNeverMissing_split c (h c hc)).1])
  have h2 : col.countP (fun c => c.eqStr "") = 0 :=
    List.countP_eq_zero.mpr (fun c hc => by
      simp [(cellNeverMissing_split c (h c hc)).2.1])
  have h3 : col.countP (fun c => (pyStripList c.pyStr).isEmpty) = 0 :=
    List.countP_eq_zero.mpr (fun c hc => by
      simp [(cellNeverMissing_split c (h c hc)).2.2.1])
  have h4 : (mvDefaultConfig.detect_custom_na.map
      (fun na => col.countP (fun c => c.eqStr na))).sum = 0 := by
    apply List.sum_eq_zero
    intro x hx
    obtain ⟨na, hna, rfl⟩ := List.mem_map.mp hx
    exact List.countP_eq_zero.mpr (fun c hc => by
      simp [(cellNeverMissing_split c (h c hc)).2.2.2 na hna])
  have hrw : countMissingValues mvDefaultConfig col
      = col.countP (fun c => c.isNa) + col.countP (fun c => c.eqStr "")
        + col.countP (fun c => (pyStripList c.pyStr).isEmpty)
        + (mvDefaultConfig.detect_custom_na.map
            (fun na => col.countP (fun c => c.eqStr na))).sum := rfl
  rw [hrw, h1, h2, h3, h4]

lemma col_cells_clean (df : DataFrame)
    (hw : ∀ r ∈ df.rows, r.length = df.ncols)
    (hclean : ∀ r ∈ df.rows, ∀ c ∈ r, cellNeverMissing c = true)
    (c : Nat) (hc : c < df.ncols) :
    ∀ x ∈ df.col c, cellNeverMissing x = true := by
  intro x hx
  obtain ⟨r, hr, hrx⟩ := List.mem_map.mp hx
  have hlen : c < r.length := by rw [hw r hr]; exact hc
  have hget : r.getD c Cell.na = r.get ⟨c, hlen⟩ :=
    List.getD_eq_getElem r Cell.na hlen
  have hmem : r.get ⟨c, hlen⟩ ∈ r := List.get_mem r c hlen
  rw [← hrx, hget]
  exact hclean r hr _ hmem

lemma mvMissingCounts_default_zero (df : DataFrame)
    (hw : ∀ r ∈ df.rows, r.length = df.ncols)
    (hclean : ∀ r ∈ df.rows, ∀ c ∈ r, cellNeverMissing c = true) :
    mvMissingCounts mvDefaultConfig df = List.replicate df.ncols 0 := by
  apply List.eq_replicate_iff.mpr
  refine ⟨by simp [mvMissingCounts], ?_⟩
  intro k hk
  obtain ⟨c, hc, rfl⟩ := List.mem_map.mp hk
  exact countMissingValues_default_zero _
    (col_cells_clean df hw hclean c (List.mem_range.mp hc))

lemma rows_pattern_all_false (df : DataFrame)
    (hw : ∀ r ∈ df.rows, r.length = df.ncols)
    (hclean : ∀ r ∈ df.rows, ∀ c ∈ r, cellNeverMissing c = true) :
    df.rows.map rowPattern
      = List.replicate df.nrows (List.replicate df.ncols false) := by
  apply List.eq_replicate_iff.mpr
  refine ⟨by simp [DataFrame.nrows], ?_⟩
  intro p hp
  obtain ⟨r, hr, rfl⟩ := List.mem_map.mp hp
  apply List.eq_replicate_iff.mpr
  refine ⟨by simp [rowPattern, hw r hr], ?_⟩
  intro b hb
  obtain ⟨c, hcr, rfl⟩ := List.mem_map.mp hb
  exact (cellNeverMissing_split c (hclean r hr c hcr)).1

lemma systematic_of_all_false (df : DataFrame) (hn : df.nrows ≠ 0)
    (hpat : df.rows.map rowPattern
      = List.replicate df.nrows (List.replicate df.ncols false)) :
    (analyzeMissingPatterns df).systematic_missing
      = [(List.replicate df.ncols false, df.nrows)] := by
  have hlt : (df.nrows : ℚ) * (1/10) < (df.nrows : ℚ) := by
    have h1 : (1 : ℚ) ≤ (df.nrows : ℚ) := by
      exact_mod_cast Nat.one_le_iff_ne_zero.mpr hn
    linarith
  have hcounts : mvPatternCounts df
      = [(List.replicate df.ncols false, df.nrows)] := by
    unfold mvPatternCounts
    rw [hpat, List.replicate_dedup hn]
    simp [List.count_replicate]
  show (mvPatternCounts df).filter _ = _
  rw [hcounts]
  simp only [List.filter]
  rw [decide_eq_true hlt]

/-- **C9.** A non-empty dataset with no cell missing under any default
detection method scores exactly 0.9 (not 1.0) with the default
`MissingValuesCheck` configuration: the all-present row pattern covers 100%
of rows, exceeding the 10% cutoff, so it is recorded as systematic and the
0.1 penalty applies; the status is still `"passed"`.  (In Python's float
arithmetic `1.0 - 0.1` rounds to the double written `0.9`, and
`0.9 >= 0.9` holds, so the exact-rational model agrees with the float
behaviour here.) -/
theorem mv_all_present_scores_point_nine (df : DataFrame)
    (hc : 0 < df.ncols) (hr : df.rows ≠ [])
    (hw : ∀ r ∈ df.rows, r.length = df.ncols)
    (hclean : ∀ r ∈ df.rows, ∀ c ∈ r, cellNeverMissing c = true) :
    (mvExecute mvDefaultConfig df).score = 9/10
    ∧ (mvExecute mvDefaultConfig df).status = "passed" := by
  have hn : df.nrows ≠ 0 := by
    simpa [DataFrame.nrows, List.length_eq_zero] using hr
  have h1 : ¬(0 < df.ncols ∧ df.nrows = 0) := fun h => hn h.2
  have h2 : ¬(df.nrows * df.ncols = 0) := by
    simp only [Nat.mul_eq_zero, not_or]
    exact ⟨hn, Nat.pos_iff_ne_zero.mp hc⟩
  have hcounts := mvMissingCounts_default_zero df hw hclean
  have hsys := systematic_of_all_false df hn (rows_pattern_all_false df hw hclean)
  have hover : mvOverallMissingPercentage mvDefaultConfig df = 0 := by
    unfold mvOverallMissingPercentage
    rw [hcounts]
    simp
  have hcols : mvColumnsWithMissing mvDefaultConfig df = 0 := by
    unfold mvColumnsWithMissing
    rw [hcounts]
    exact List.countP_eq_zero.mpr (fun k hk => by
      have := List.eq_of_mem_replicate hk
      simp [this])
  have hA : analyzeMissingValues mvDefaultConfig df = Except.ok
      { total_rows := df.nrows
        total_columns := df.ncols
        missing_counts := mvMissingCounts mvDefaultConfig df
        missing_percentages := mvMissingPercentages mvDefaultConfig df
        columns_with_missing := mvColumnsWithMissing mvDefaultConfig df
        overall_missing_percentage := mvOverallMissingPercentage mvDefaultConfig df
        missing_patterns := some (analyzeMissingPatterns df)
        correlations := mvCorrelations mvDefaultConfig df
        recommendations := imputationMessages mvDefaultConfig
          (mvOverallMissingPercentage mvDefaultConfig df)
          (mvMissingPercentages mvDefaultConfig df)
          (analyzeMissingPatterns df).systematic_missing
          (mvCorrelations mvDefaultConfig df) } := by
    unfold analyzeMissingValues
    rw [if_neg h1, if_neg h2]
    rfl
  have hscore : mvCalculateQualityScore
      { total_rows := df.nrows
        total_columns := df.ncols
        missing_counts := mvMissingCounts mvDefaultConfig df
        missing_percentages := mvMissingPercentages mvDefaultConfig df
        columns_with_missing := mvColumnsWithMissing mvDefaultConfig df
        overall_missing_percentage := mvOverallMissingPercentage mvDefaultConfig df
        missing_patterns := some (analyzeMissingPatterns df)
        correlations := mvCorrelations mvDefaultConfig df
        recommendations := imputationMessages mvDefaultConfig
          (mvOverallMissingPercentage mvDefaultConfig df)
          (mvMissingPercentages mvDefaultConfig df)
          (analyzeMissingPatterns df).systematic_missing
          (mvCorrelations mvDefaultConfig df) } = Except.ok (9/10) := by
    simp only [mvCalculateQualityScore, lookupSystematic, mvScoreValue,
      hsys, hover, hcols]
    norm_num [min_def, max_def]
  have hval : mvValidateConfig mvDefaultConfig = true := by
    norm_num [mvValidateConfig, mvDefaultConfig]
  have hstatus : mvDetermineStatus (9/10) = "passed" := by
    unfold mvDetermineStatus
    rw [if_pos (le_refl _)]
  constructor
  · simp [mvExecute, hval, hA, hscore]
  · simp [mvExecute, hval, hA, hscore, hstatus]

/-- **C9, witness.** A concrete 2-row, 1-column all-present dataset scores
0.9 with status `"passed"`. -/
theorem mv_all_present_scores_point_nine_witness :
    (mvExecute mvDefaultConfig ⟨1, [[Cell.str "a"], [Cell.str "b"]]⟩).score = 9/10
    ∧ (mvExecute mvDefaultConfig ⟨1, [[Cell.str "a"], [Cell.str "b"]]⟩).status
      = "passed" :=
  mv_all_present_scores_point_nine ⟨1, [[Cell.str "a"], [Cell.str "b"]]⟩
    (by decide) (by decide) (by decide) (by decide)

/-! ## Claim C10: `analyze_patterns=False` always errors -/

/-- With pattern analysis disabled the `patterns` dict stays empty, and both
downstream readers of `patterns["systematic_missing"]` (the recommendation
step and the scoring step) raise `KeyError`; on a degenerate empty frame the
overall-percentage division raises first.  Either way `analyzeMissingValues`
returns an error. -/
theorem analyzeMissingValues_patterns_disabled_error (cfg : MissingValuesConfig)
    (hp : cfg.analyze_patterns = false) (hs : cfg.suggest_imputation = true)
    (df : DataFrame) :
    ∃ e, analyzeMissingValues cfg df = Except.error e := by
  unfold analyzeMissingValues
  by_cases h1 : 0 < df.ncols ∧ df.nrows = 0
  · simp [h1]
  · rw [if_neg h1]
    by_cases h2 : df.nrows * df.ncols = 0
    · simp [h2]
    · rw [if_neg h2]
      simp [hp, hs, generateImputationRecommendations, lookupSystematic, mvPatterns]

/-- **C10.** For every dataset, `MissingValuesCheck` configured with
`analyze_patterns=False` (all other options default) returns a `CheckResult`
with `status = "error"` and `score = 0.0`: the empty patterns dict makes the
unconditional `"systematic_missing"` lookup fail, and `execute`'s exception
handler converts the failure into an error result. -/
theorem mv_analyze_patterns_false_errors (df : DataFrame) :
    (mvExecute { mvDefaultConfig with analyze_patterns := false } df).status
      = "error"
    ∧ (mvExecute { mvDefaultConfig with analyze_patterns := false } df).score
      = 0 := by
  obtain ⟨e, he⟩ :=
    analyzeMissingValues_patterns_disabled_error
      { mvDefaultConfig with analyze_patterns := false } rfl rfl df
  have hval : mvValidateConfig { mvDefaultConfig with analyze_patterns := false }
      = true := by
    simp [mvValidateConfig, mvDefaultConfig]
    norm_num
  unfold mvExecute
  rw [hval, he]
  exact ⟨rfl, rfl⟩

/-- **C10, witness.** The error behaviour at a concrete dataset. -/
theorem mv_analyze_patterns_false_errors_witness :
    (mvExecute { mvDefaultConfig with analyze_patterns := false }
        ⟨1, [[Cell.str "x"]]⟩).status = "error"
    ∧ (mvExecute { mvDefaultConfig with analyze_patterns := false }
        ⟨1, [[Cell.str "x"]]⟩).score = 0 :=
  mv_analyze_patterns_false_errors ⟨1, [[Cell.str "x"]]⟩

/-! ## `core/engine.py`: the orchestrator dispatch (claim C4) -/

/-- Which method of a freshly constructed check the engine invokes. -/
inductive CalledMethod where
  | execute : CalledMethod
  | run : CalledMethod
deriving Repr, DecidableEq

/-- The hard-coded placeholder result `_execute_check` fabricates for the
`"data_types"` type (engine.py, lines 210-220). -/
def dataTypesPlaceholder : CheckResult :=
  { check_name := "Data Types Validation"
    check_type := "data_types"
    status := "passed"
    score := 95/100
    details := [("message", "Data types check completed successfully")]
    execution_time := 1/10
    timestamp := "" }

/-- The error result of `_execute_check`'s own `except` block (engine.py,
lines 227-237). -/
def engineErrorResult (checkType e : String) : CheckResult :=
  { check_name := checkType ++ " check"
    check_type := checkType
    status := "error"
    score := 0
    details := [("error", e)]
    execution_time := 0
    timestamp := "" }

/-- `DataQualityEngine._execute_check` (engine.py, lines 187-237).

For `"missing_values"`, `"duplicates"` and `"outliers"` the engine
constructs the check with its *default* configuration (`custom_rules` is
accepted but never consulted) and invokes `check.execute(data)` directly —
never `check.run(data)`.  `exec` is the oracle giving that freshly
constructed default check's `execute` outcome on the dataset
(`Except.error` modelling a raised exception, which the engine's
`try/except` converts to an error result).  Returns the produced result
(`none` for an unknown type, which is logged and skipped) paired with the
trace of check methods the engine invoked. -/
def engineExecuteCheck (checkType : String)
    (exec : String → Except String CheckResult) :
    Option CheckResult × List CalledMethod :=
  if checkType = "missing_values" ∨ checkType = "duplicates"
      ∨ checkType = "outliers" then
    match exec checkType with
    | Except.ok r => (some r, [CalledMethod.execute])
    | Except.error e =>
      (some (engineErrorResult checkType e), [CalledMethod.execute])
  else if checkType = "data_types" then (some dataTypesPlaceholder, [])
  else (none, [])

/-- The default check list of `run_quality_checks` (engine.py,
lines 170-175). -/
def basicChecks : List String :=
  ["missing_values", "data_types", "duplicates", "outliers"]

/-- `DataQualityEngine.run_quality_checks` (engine.py, lines 143-185):
empty data short-circuits to `[]`; otherwise each requested type (default
`basic_checks`) goes through `_execute_check`, collecting the non-`None`
results.  The invocation trace is accumulated alongside. -/
def runQualityChecks (dataEmpty : Bool) (checkTypes : Option (List String))
    (exec : String → Except String CheckResult) :
    List CheckResult × List CalledMethod :=
  if dataEmpty then ([], [])
  else
    (checkTypes.getD basicChecks).foldl
      (fun st t =>
        let r := engineExecuteCheck t exec
        (st.1 ++ (match r.1 with | some res => [res] | none => []),
          st.2 ++ r.2))
      ([], [])

/-- **C4, counterexample.** The orchestrator never invokes `run` on the
checks it constructs: dispatching `"missing_values"` invokes only
`execute`, so the `run` wrapper's disabled/invalid-config gating and timing
do not apply to orchestrated check executions. -/
theorem engine_never_calls_run_counterexample :
    (engineExecuteCheck "missing_values"
        (fun _ => Except.ok dataTypesPlaceholder)).2 = [CalledMethod.execute]
    ∧ CalledMethod.run ∉
      (engineExecuteCheck "missing_values"
        (fun _ => Except.ok dataTypesPlaceholder)).2 := by
  constructor
  · rfl
  · intro h
    simp [engineExecuteCheck] at h

/-- **C4, amended.** For each of the three algorithmic check types handled
by `run_quality_checks`, the orchestrator constructs the corresponding
check with its default configuration (a supplied `custom_rules` argument is
ignored) and invokes the check's `execute` method directly, bypassing the
`run` wrapper — the engine's own `try/except` supplies the error isolation;
`"data_types"` yields a fixed placeholder and invokes no check method; and
a full default orchestration over non-empty data invokes `execute` exactly
three times. -/
theorem engine_dispatch_executes_directly
    (exec : String → Except String CheckResult) :
    (engineExecuteCheck "missing_values" exec
      = ((match exec "missing_values" with
          | Except.ok r => some r
          | Except.error e => some (engineErrorResult "missing_values" e)),
        [CalledMethod.execute]))
    ∧ (engineExecuteCheck "duplicates" exec
      = ((match exec "duplicates" with
          | Except.ok r => some r
          | Except.error e => some (engineErrorResult "duplicates" e)),
        [CalledMethod.execute]))
    ∧ (engineExecuteCheck "outliers" exec
      = ((match exec "outliers" with
          | Except.ok r => some r
          | Except.error e => some (engineErrorResult "outliers" e)),
        [CalledMethod.execute]))
    ∧ engineExecuteCheck "data_types" exec = (some dataTypesPlaceholder, [])
    ∧ (runQualityChecks false none exec).2
      = [CalledMethod.execute, CalledMethod.execute, CalledMethod.execute] := by
  refine ⟨?_, ?_, ?_, rfl, ?_⟩
  · cases hm : exec "missing_values" <;> simp [engineExecuteCheck, hm]
  · cases hm : exec "duplicates" <;> simp [engineExecuteCheck, hm]
  · cases hm : exec "outliers" <;> simp [engineExecuteCheck, hm]
  · cases hm : exec "missing_values" <;> cases hd : exec "duplicates" <;>
      cases ho : exec "outliers" <;>
      simp [runQualityChecks, basicChecks, engineExecuteCheck, hm, hd, ho]
